import Mathlib

/-!
Shallow embedding of `src/game_engine.c` (flipperzero-game-engine).

Machine integers (`uint32_t`) are embedded as `Nat` with explicit reduction
modulo `2^32` where C arithmetic wraps; C float arithmetic on frame rates is
embedded over `ℚ` (exact arithmetic), since the claims under study concern
which operands the code combines, not rounding.  C float division with a zero
divisor is embedded as the `none` case of an `Option`-valued operation.
Pointers that the code only stores or compares with `NULL` are embedded as
`Option Nat`.
-/

/-- `2^32`, the modulus of `uint32_t` arithmetic. -/
def U32_MOD : Nat := 2 ^ 32

/-- `0xFFFFFFFF`, the all-ones 32-bit word. -/
def mask32 : Nat := 2 ^ 32 - 1

/-- C bitwise complement `~x` on a `uint32_t` value. -/
def compl32 (x : Nat) : Nat := x ^^^ mask32

/-- C unsigned 32-bit subtraction `a - b` (wrapping), for `a b < 2^32`. -/
def sub32 (a b : Nat) : Nat := (a + U32_MOD - b) % U32_MOD

/-! ### Logical keys

Modelled from the spec: the constants `GameKeyUp` … `GameKeyBack` are declared
in `game_engine.h`, which is not under `src/`.  The data model of the spec
fixes them as six distinct single-bit masks over one machine word
("a single word-sized bitmask … one bit set per key-down, cleared per
key-up", over "a fixed small set of logical keys"). -/

def GameKeyUp : Nat := 1 <<< 0

def GameKeyDown : Nat := 1 <<< 1

def GameKeyRight : Nat := 1 <<< 2

def GameKeyLeft : Nat := 1 <<< 3

def GameKeyOk : Nat := 1 <<< 4

def GameKeyBack : Nat := 1 <<< 5

/-- Raw input transition types of the external input collaborator
(`<input/input.h>`: Press, Release, Repeat, Short, Long). -/
inductive InputType where
  | press
  | release
  | repeatKey
  | shortKey
  | longKey
  deriving DecidableEq, Repr

/-- A raw input event `{key, type}`; the raw key code is a plain integer. -/
structure InputEvent where
  key : Nat
  type : InputType
  deriving DecidableEq, Repr

/-- The table `static const GameKey keys[]` (src/game_engine.c lines 72–79),
indexed by raw key code `InputKeyUp = 0, …, InputKeyBack = 5` (indices of the
external input collaborator). -/
def keys : List Nat := [GameKeyUp, GameKeyDown, GameKeyRight, GameKeyLeft, GameKeyOk, GameKeyBack]

/-- `keys_count = sizeof(keys) / sizeof(keys[0])` (line 81). -/
def keys_count : Nat := keys.length

/-- `input_events_callback` (lines 83–99) as a state transformer on the shared
input accumulator word: a Press ORs in the mapped key mask, a Release ANDs
with its complement, any other type and any key code `≥ keys_count` leave the
accumulator unchanged. -/
def input_events_callback (event : InputEvent) (input_state : Nat) : Nat :=
  if event.key < keys_count then
    match event.type with
    | .press => input_state ||| keys.getD event.key 0
    | .release => input_state &&& compl32 (keys.getD event.key 0)
    | _ => input_state
  else
    input_state

/-- The per-frame input snapshot handed to the client callback
(`InputState`, built at lines 137–141). -/
structure InputState where
  held : Nat
  pressed : Nat
  released : Nat
  deriving DecidableEq, Repr

/-- The edge-detection computation of lines 136–141: from the previous-frame
snapshot and the freshly read accumulator value, build this frame's
`InputState`. -/
def input_snapshot (input_current_state input_prev_state : Nat) : InputState :=
  { held := input_current_state
    pressed := input_current_state &&& compl32 input_prev_state
    released := compl32 input_current_state &&& input_prev_state }

/-- Lines 136–142 as one step: read `input_current_state` from the
accumulator, derive the `InputState`, and store the current value as the new
`input_prev_state`. Returns (InputState, new input_prev_state). -/
def input_step (input_prev_state input_current_state : Nat) : InputState × Nat :=
  (input_snapshot input_current_state input_prev_state, input_current_state)

/-! ### Engine configuration and construction -/

/-- `GameEngineSettings` (game_engine.h / lines 9–16): target rate, FPS
overlay flag, client callback pointer, opaque context pointer. -/
structure GameEngineSettings where
  fps : ℚ
  show_fps : Bool
  callback : Option Nat
  context : Option Nat
  deriving DecidableEq, Repr

/-- `game_engine_settings_init` (lines 9–16). -/
def game_engine_settings_init : GameEngineSettings :=
  { fps := 60, show_fps := false, callback := none, context := none }

/-- `struct GameEngine` (lines 18–23): display handle, input pub/sub handle,
controlling thread id, and the settings. -/
structure GameEngine where
  gui : Nat
  input_pubsub : Nat
  thread_id : Nat
  settings : GameEngineSettings
  deriving DecidableEq, Repr

/-- `game_engine_alloc` (lines 37–47).  `furi_check(settings.callback != NULL)`
aborts the process when the callback is `NULL`; the abort is embedded as
`none`.  The handles returned by `furi_record_open` and
`furi_thread_get_current_id` are environment-supplied and passed in as
arguments. -/
def game_engine_alloc (gui input_pubsub thread_id : Nat)
    (settings : GameEngineSettings) : Option GameEngine :=
  if settings.callback.isSome then
    some { gui := gui, input_pubsub := input_pubsub, thread_id := thread_id,
           settings := settings }
  else
    none

/-! ### The running engine and its per-frame handle -/

/-- `struct RunningGameEngine` (lines 25–28): the owning engine and the most
recently measured instantaneous FPS (`run.fps`, written at line 148). -/
structure RunningGameEngine where
  engine : GameEngine
  fps : ℚ
  deriving DecidableEq, Repr

/-- `running_game_engine_get_delta_time` (lines 180–182):
`return 1.0f / engine->fps;` where `engine` is the `RunningGameEngine`
handle, so `fps` is the measured instantaneous rate stored in the handle. -/
def running_game_engine_get_delta_time (engine : RunningGameEngine) : ℚ :=
  1 / engine.fps

/-- `running_game_engine_get_delta_frames` (lines 184–186):
`return engine->fps / engine->engine->settings.fps;` — measured FPS over the
configured target FPS. -/
def running_game_engine_get_delta_frames (engine : RunningGameEngine) : ℚ :=
  engine.fps / engine.engine.settings.fps

/-! ### FPS counter -/

/-- Lines 131–133 as one step of the cycle-counter bookkeeping: given the
stored `time_start` and the fresh reading `time_end = DWT->CYCCNT`, compute
`time_delta = time_end - time_start` (unsigned 32-bit wrapping subtraction)
and store `time_end` as the new `time_start`.  Returns
(time_delta, new time_start). -/
def fps_counter_step (time_start time_end : Nat) : Nat × Nat :=
  (sub32 time_end time_start, time_end)

/-- Line 148, `run.fps = (float)SystemCoreClock / time_delta;`, embedded as a
partial operation: the division is reached unconditionally, and the case
`time_delta = 0` — a float division with a zero divisor, the degenerate case
the spec requires to be clamped or skipped — is marked `none`. -/
def compute_fps (systemCoreClock : ℚ) (time_delta : Nat) : Option ℚ :=
  if time_delta = 0 then none else some (systemCoreClock / time_delta)

/-- The FPS part of one Update frame (lines 131–133 and 148): cycle-counter
step, then the unguarded division.  Returns (fps result, new time_start). -/
def frame_fps_update (systemCoreClock : ℚ) (time_start time_end : Nat) :
    Option ℚ × Nat :=
  let step := fps_counter_step time_start time_end
  (compute_fps systemCoreClock step.1, step.2)

/-! ### The main loop (lines 124–174) as an event trace -/

/-- One wait-wake of `furi_thread_flags_wait` (line 126), restricted to the
two waited-on flags `GameThreadFlagUpdate` and `GameThreadFlagStop`. -/
structure ThreadFlags where
  update : Bool
  stop : Bool
  deriving DecidableEq, Repr

/-- Observable actions of `game_engine_run` after startup: one full Update
frame (input snapshot, client callback invocation, optional FPS overlay,
surface commit — lines 129–161), and the shutdown actions `clock_timer_stop`
(line 169), `gui_direct_draw_release` (line 172) and
`furi_pubsub_unsubscribe` (line 173). -/
inductive LoopEvent where
  | frame
  | stopTimer
  | releaseCanvas
  | unsubscribe
  deriving DecidableEq, Repr

/-- The `while(true)` loop of lines 124–174 over a (finite prefix of a)
sequence of wait-wake results, as the trace of observable actions: on each
wake, the Update flag is handled first (lines 129–161), then the Stop flag
breaks out of the loop (lines 163–165), after which the shutdown actions of
lines 168–173 run.  An exhausted wake list ends the (partial) trace. -/
def game_engine_run_trace : List ThreadFlags → List LoopEvent
  | [] => []
  | f :: rest =>
    (if f.update then [LoopEvent.frame] else []) ++
      (if f.stop then [LoopEvent.stopTimer, LoopEvent.releaseCanvas, LoopEvent.unsubscribe]
       else game_engine_run_trace rest)

/-- The frame events a single wake contributes before any shutdown. -/
def wake_frames (f : ThreadFlags) : List LoopEvent :=
  if f.update then [LoopEvent.frame] else []

/-! ## Shared helper lemmas -/

theorem keys_getD_eq_two_pow (k : Nat) (hk : k < keys_count) :
    keys.getD k 0 = 2 ^ k := by
  simp only [keys_count, keys, List.length] at hk
  interval_cases k <;> decide

theorem testBit_compl32 (x i : Nat) :
    (compl32 x).testBit i = (x.testBit i != decide (i < 32)) := by
  rw [compl32, mask32, Nat.testBit_xor, Nat.testBit_two_pow_sub_one]

theorem testBit_of_lt_u32 {x : Nat} (hx : x < U32_MOD) {i : Nat} (hi : 32 ≤ i) :
    x.testBit i = false := by
  apply Nat.testBit_lt_two_pow
  calc x < 2 ^ 32 := hx
    _ ≤ 2 ^ i := Nat.pow_le_pow_right (by norm_num) hi

/-! ## Claims -/

/-- C4: for every pair of accumulator values `input_prev_state` and
`input_current_state` (both 32-bit words), the derived `InputState` satisfies
`pressed &&& released = 0`: no key is simultaneously in the pressed set and
the released set of the same frame. -/
theorem pressed_and_released_disjoint (input_prev_state input_current_state : Nat)
    (hc : input_current_state < U32_MOD) :
    (input_snapshot input_current_state input_prev_state).pressed &&&
      (input_snapshot input_current_state input_prev_state).released = 0 := by
  apply Nat.eq_of_testBit_eq
  intro i
  simp only [input_snapshot, Nat.testBit_and, testBit_compl32, Nat.zero_testBit]
  by_cases h : i < 32
  · simp only [h, decide_eq_true_eq, decide_True]
    cases input_current_state.testBit i <;> cases input_prev_state.testBit i <;> rfl
  · rw [testBit_of_lt_u32 hc (by omega)]
    rfl

/-- C4 witness. -/
theorem pressed_and_released_disjoint_witness :
    (5 : Nat) < U32_MOD ∧
      (input_snapshot 5 3).pressed &&& (input_snapshot 5 3).released = 0 :=
  ⟨by decide, pressed_and_released_disjoint 3 5 (by decide)⟩

/-- C3: on every frame, with `input_prev_state` the snapshot stored at the end
of the previous frame and `input_current_state` the value read from the shared
accumulator, the `InputState` handed to the callback satisfies
`held = current`, `pressed = current & ~prev`, `released = ~current & prev`,
and `input_prev_state` is then updated to `input_current_state`; in
particular, for previous held {Up} and new snapshot {Up, Down} the result is
pressed = {Down}, released = {}, held = {Up, Down}, and for previous held
{Ok} and new snapshot {} the result is released = {Ok}, pressed = {},
held = {}. -/
theorem input_step_edge_detection (input_prev_state input_current_state : Nat) :
    (input_step input_prev_state input_current_state).1.held = input_current_state ∧
      (input_step input_prev_state input_current_state).1.pressed
        = input_current_state &&& compl32 input_prev_state ∧
      (input_step input_prev_state input_current_state).1.released
        = compl32 input_current_state &&& input_prev_state ∧
      (input_step input_prev_state input_current_state).2 = input_current_state ∧
      input_step GameKeyUp (GameKeyUp ||| GameKeyDown)
        = ({ held := GameKeyUp ||| GameKeyDown, pressed := GameKeyDown, released := 0 },
           GameKeyUp ||| GameKeyDown) ∧
      input_step GameKeyOk 0 = ({ held := 0, pressed := 0, released := GameKeyOk }, 0) :=
  ⟨rfl, rfl, rfl, rfl, by decide, by decide⟩

/-- C7: the elapsed cycle count is computed as the wrapping 32-bit subtraction
of consecutive cycle-counter readings and `time_start` is then set to the new
reading; the result is the true elapsed count even when the counter wraps
between the two readings, provided the true elapsed count is below `2^32`. -/
theorem fps_counter_step_wraparound (time_start elapsed : Nat)
    (h1 : time_start < U32_MOD) (h2 : elapsed < U32_MOD) :
    fps_counter_step time_start ((time_start + elapsed) % U32_MOD)
      = (elapsed, (time_start + elapsed) % U32_MOD) := by
  have hM : U32_MOD = 4294967296 := by norm_num [U32_MOD]
  simp only [fps_counter_step, sub32, hM] at *
  rw [Prod.mk.injEq]
  exact ⟨by omega, rfl⟩

/-- C7 witness: a reading pair that straddles the counter wrap. -/
theorem fps_counter_step_wraparound_witness :
    4294967295 < U32_MOD ∧ 10 < U32_MOD ∧
      fps_counter_step 4294967295 ((4294967295 + 10) % U32_MOD)
        = (10, (4294967295 + 10) % U32_MOD) :=
  ⟨by norm_num [U32_MOD], by norm_num [U32_MOD],
    fps_counter_step_wraparound 4294967295 10 (by norm_num [U32_MOD])
      (by norm_num [U32_MOD])⟩

/-- C2 (code bug): the FPS computation of line 148 is NOT guarded — when the
two consecutive cycle readings coincide (elapsed cycle count 0), the frame
update reaches the division `SystemCoreClock / time_delta` with a zero
divisor (the `none` case) instead of clamping or skipping it. -/
theorem fps_division_reached_at_zero_delta (systemCoreClock : ℚ) (time_start : Nat) :
    frame_fps_update systemCoreClock time_start time_start = (none, time_start) := by
  have h0 : sub32 time_start time_start = 0 := by
    simp [sub32, Nat.add_sub_cancel_left]
  simp [frame_fps_update, fps_counter_step, compute_fps, h0]

/-- C8: `game_engine_alloc` aborts via `furi_check` exactly when the supplied
settings contain no callback; for every settings value with a non-null
callback it returns an engine holding those settings unchanged (together with
the environment-supplied record handles and thread id). -/
theorem game_engine_alloc_spec (gui input_pubsub thread_id : Nat)
    (settings : GameEngineSettings) :
    game_engine_alloc gui input_pubsub thread_id settings
      = if settings.callback = none then none
        else some { gui := gui, input_pubsub := input_pubsub,
                    thread_id := thread_id, settings := settings } := by
  obtain ⟨fps, show_fps, callback, context⟩ := settings
  cases callback <;> simp [game_engine_alloc]

/-- C9: an input event whose raw key code lies outside the key table
(`key ≥ keys_count`) leaves the shared input accumulator unchanged; the
handler has no error channel, so the event is silently ignored. -/
theorem unrecognized_key_ignored (event : InputEvent) (input_state : Nat)
    (h : keys_count ≤ event.key) :
    input_events_callback event input_state = input_state := by
  unfold input_events_callback
  rw [if_neg (by omega)]

/-- C9 witness: key code 6 (one past the table) with a Press event. -/
theorem unrecognized_key_ignored_witness :
    keys_count ≤ 6 ∧
      input_events_callback { key := 6, type := InputType.press } 5 = 5 :=
  ⟨by decide, unrecognized_key_ignored { key := 6, type := InputType.press } 5 (by decide)⟩

/-- C1 counterexample: a handle whose measured FPS (30) differs from the
configured target (60) — `delta_time()` returns `1/30`, not `1/60`, so it is
not `1 / target_fps` and not independent of the measured rate. -/
theorem delta_time_not_target_counterexample :
    running_game_engine_get_delta_time
        { engine := { gui := 0, input_pubsub := 0, thread_id := 0,
                      settings := { fps := 60, show_fps := false,
                                    callback := some 1, context := none } },
          fps := 30 }
      ≠ 1 / (60 : ℚ) := by
  simp only [running_game_engine_get_delta_time]
  norm_num

/-- C1 (amended): `delta_time()` returns `1 / measured_fps`, the reciprocal of
the instantaneous FPS stored in the handle — it depends on the measured, not
the configured, rate: replacing the configured settings leaves it unchanged. -/
theorem delta_time_is_reciprocal_of_measured (run : RunningGameEngine)
    (h : run.fps ≠ 0) :
    running_game_engine_get_delta_time run * run.fps = 1 ∧
      ∀ cfg : GameEngineSettings,
        running_game_engine_get_delta_time
            { engine := { run.engine with settings := cfg }, fps := run.fps }
          = running_game_engine_get_delta_time run := by
  constructor
  · rw [running_game_engine_get_delta_time]
    field_simp
  · intro cfg
    rfl

/-- C1 witness: measured FPS 30, configured target 60. -/
theorem delta_time_is_reciprocal_of_measured_witness :
    running_game_engine_get_delta_time
          { engine := { gui := 0, input_pubsub := 0, thread_id := 0,
                        settings := { fps := 60, show_fps := false,
                                      callback := some 1, context := none } },
            fps := 30 } * 30 = 1 ∧
      running_game_engine_get_delta_time
          { engine := { gui := 0, input_pubsub := 0, thread_id := 0,
                        settings := { fps := 90, show_fps := true,
                                      callback := some 1, context := none } },
            fps := 30 }
        = running_game_engine_get_delta_time
            { engine := { gui := 0, input_pubsub := 0, thread_id := 0,
                          settings := { fps := 60, show_fps := false,
                                        callback := some 1, context := none } },
              fps := 30 } :=
  ⟨(delta_time_is_reciprocal_of_measured _ (by norm_num)).1,
   (delta_time_is_reciprocal_of_measured
      { engine := { gui := 0, input_pubsub := 0, thread_id := 0,
                    settings := { fps := 60, show_fps := false,
                                  callback := some 1, context := none } },
        fps := 30 } (by norm_num)).2
     { fps := 90, show_fps := true, callback := some 1, context := none }⟩

/-- C6: `delta_frames()` returns `measured_fps / target_fps`; it is exactly 1
when the measured FPS equals the configured target and exactly 2 when the
measured FPS is twice the target. -/
theorem delta_frames_is_measured_over_target (run : RunningGameEngine)
    (h : run.engine.settings.fps ≠ 0) :
    running_game_engine_get_delta_frames run
        = run.fps / run.engine.settings.fps ∧
      (run.fps = run.engine.settings.fps →
        running_game_engine_get_delta_frames run = 1) ∧
      (run.fps = 2 * run.engine.settings.fps →
        running_game_engine_get_delta_frames run = 2) := by
  refine ⟨rfl, ?_, ?_⟩ <;> intro he <;>
    rw [running_game_engine_get_delta_frames, he] <;> field_simp

/-- C6 witness: target 60 with measured 60 gives ratio 1. -/
theorem delta_frames_is_measured_over_target_witness :
    running_game_engine_get_delta_frames
        { engine := { gui := 0, input_pubsub := 0, thread_id := 0,
                      settings := { fps := 60, show_fps := false,
                                    callback := some 1, context := none } },
          fps := 60 }
      = 1 :=
  (delta_frames_is_measured_over_target _ (by norm_num)).2.1 rfl

/-- C5: when a wait-wake returns with both the Update and the Stop flags set
(after any number of stop-free wakes), the Update frame is processed first,
then the loop exits and the shutdown actions (stop FrameClock, release the
display surface, remove the input subscription) run; no frame — hence no
client-callback invocation — occurs after the Stop flag is observed, whatever
further wakes would have followed. -/
theorem stop_with_update_frame_first (pre : List ThreadFlags) (f : ThreadFlags)
    (rest : List ThreadFlags) (hpre : ∀ g ∈ pre, g.stop = false)
    (hu : f.update = true) (hs : f.stop = true) :
    game_engine_run_trace (pre ++ f :: rest)
      = pre.flatMap wake_frames ++
        [LoopEvent.frame, LoopEvent.stopTimer, LoopEvent.releaseCanvas,
         LoopEvent.unsubscribe] := by
  induction pre with
  | nil => simp [game_engine_run_trace, hu, hs]
  | cons g gs ih =>
    have hg : g.stop = false := hpre g (by simp)
    have ih' := ih fun x hx => hpre x (by simp [hx])
    simp only [List.cons_append, game_engine_run_trace, hg, List.flatMap_cons,
      List.append_eq, wake_frames, ih', Bool.false_eq_true, if_false,
      List.append_assoc]

/-- C5 witness: one stop-free Update wake, then a wake with both flags, then a
further Update wake that is never processed. -/
theorem stop_with_update_frame_first_witness :
    game_engine_run_trace
        ([{ update := true, stop := false }] ++
          { update := true, stop := true } :: [{ update := true, stop := false }])
      = [({ update := true, stop := false } : ThreadFlags)].flatMap wake_frames ++
        [LoopEvent.frame, LoopEvent.stopTimer, LoopEvent.releaseCanvas,
         LoopEvent.unsubscribe] :=
  stop_with_update_frame_first [{ update := true, stop := false }]
    { update := true, stop := true } [{ update := true, stop := false }]
    (by decide) rfl rfl

/-- C10: for a recognized key code, `input_events_callback` changes at most
the single accumulator bit mapped to that key (in this embedding, key code
`k` maps to bit `k`): every other bit is unchanged; a Press sets the mapped
bit, a Release clears it, and any other transition type leaves the
accumulator entirely unchanged. -/
theorem recognized_key_affects_single_bit (event : InputEvent) (input_state : Nat)
    (hk : event.key < keys_count) (hs : input_state < U32_MOD) :
    (∀ i, i ≠ event.key →
        (input_events_callback event input_state).testBit i
          = input_state.testBit i) ∧
      (event.type = InputType.press →
        (input_events_callback event input_state).testBit event.key = true) ∧
      (event.type = InputType.release →
        (input_events_callback event input_state).testBit event.key = false) ∧
      (event.type ≠ InputType.press → event.type ≠ InputType.release →
        input_events_callback event input_state = input_state) := by
  obtain ⟨key, type⟩ := event
  simp only at hk ⊢
  have hkey : keys.getD key 0 = 2 ^ key := keys_getD_eq_two_pow key hk
  have hk32 : key < 32 := by
    simp only [keys_count, keys, List.length] at hk
    omega
  cases type with
  | press =>
    have hres : input_events_callback { key := key, type := InputType.press }
        input_state = input_state ||| 2 ^ key := by
      simp only [input_events_callback, if_pos hk]
      rw [hkey]
    refine ⟨?_, ?_, ?_, ?_⟩
    · intro i hi
      rw [hres, Nat.testBit_or, Nat.testBit_two_pow]
      simp [Ne.symm hi]
    · intro _
      rw [hres, Nat.testBit_or, Nat.testBit_two_pow]
      simp
    · intro h
      exact absurd h (by decide)
    · intro h _
      exact absurd rfl h
  | release =>
    have hres : input_events_callback { key := key, type := InputType.release }
        input_state = input_state &&& compl32 (2 ^ key) := by
      simp only [input_events_callback, if_pos hk]
      rw [hkey]
    refine ⟨?_, ?_, ?_, ?_⟩
    · intro i hi
      rw [hres, Nat.testBit_and, testBit_compl32, Nat.testBit_two_pow]
      by_cases h32 : i < 32
      · simp [Ne.symm hi, h32]
      · rw [testBit_of_lt_u32 hs (by omega)]
        simp [h32, Ne.symm hi]
    · intro h
      exact absurd h (by decide)
    · intro _
      rw [hres, Nat.testBit_and, testBit_compl32, Nat.testBit_two_pow]
      simp [hk32]
    · intro _ h
      exact absurd rfl h
  | repeatKey =>
    have hres : input_events_callback { key := key, type := InputType.repeatKey }
        input_state = input_state := by
      simp [input_events_callback, if_pos hk]
    exact ⟨fun i _ => by rw [hres], fun h => absurd h (by decide),
      fun h => absurd h (by decide), fun _ _ => hres⟩
  | shortKey =>
    have hres : input_events_callback { key := key, type := InputType.shortKey }
        input_state = input_state := by
      simp [input_events_callback, if_pos hk]
    exact ⟨fun i _ => by rw [hres], fun h => absurd h (by decide),
      fun h => absurd h (by decide), fun _ _ => hres⟩
  | longKey =>
    have hres : input_events_callback { key := key, type := InputType.longKey }
        input_state = input_state := by
      simp [input_events_callback, if_pos hk]
    exact ⟨fun i _ => by rw [hres], fun h => absurd h (by decide),
      fun h => absurd h (by decide), fun _ _ => hres⟩

/-- C10 witness: a Press of key code 1 (Down) while Up (bit 0) is held leaves
bit 0 unchanged and sets bit 1. -/
theorem recognized_key_affects_single_bit_witness :
    (input_events_callback { key := 1, type := InputType.press } GameKeyUp).testBit 0
        = (GameKeyUp : Nat).testBit 0 ∧
      (input_events_callback { key := 1, type := InputType.press } GameKeyUp).testBit 1
        = true :=
  ⟨(recognized_key_affects_single_bit { key := 1, type := InputType.press }
        GameKeyUp (by decide) (by decide)).1 0 (by decide),
   (recognized_key_affects_single_bit { key := 1, type := InputType.press }
        GameKeyUp (by decide) (by decide)).2.1 rfl⟩
